import Mathlib

/-!
# Agent sidecar injection

A shallow embedding of `pkg/clusteragent/admission/mutate/agent_sidecar/agent_sidecar.go`
(package `agentsidecar`): the default sidecar template `getDefaultSidecarTemplate` and the
pod mutation `injectAgentSidecar`.

* Kubernetes API types (`corev1.Pod`, `corev1.Container`, `corev1.EnvVar`, ...) are records
  holding the fields the program reads or writes.
* The process-wide stores the program reads (`os.Getenv`, `config.Datadog`,
  `apiCommon.GetMyNamespace`, the constants `config.DefaultSite` and
  `agentSidecarContainerName`) are gathered in one record, `Settings`, passed explicitly.
* A `*corev1.Pod` is an `Option Pod`; in-place mutation is the pod returned in `Outcome`.
* `injectAgentSidecar` also records the calls it makes, in order, in `Outcome.trace`.
-/

set_option autoImplicit false

namespace agentsidecar

/-! ## Data model -/

/-- Go `error` value, carried by its message. -/
structure GoError where
  msg : String
  deriving DecidableEq, Repr

/-- Type `corev1.SecretKeySelector`: `Name` is the embedded `LocalObjectReference.Name`. -/
structure SecretKeySelector where
  Name : String
  Key : String
  deriving DecidableEq, Repr

/-- Type `corev1.ObjectFieldSelector`. -/
structure ObjectFieldSelector where
  APIVersion : String
  FieldPath : String
  deriving DecidableEq, Repr

/-- Type `corev1.EnvVarSource`, with the two pointer fields the program sets. -/
structure EnvVarSource where
  FieldRef : Option ObjectFieldSelector := none
  SecretKeyRef : Option SecretKeySelector := none
  deriving DecidableEq, Repr

/-- Type `corev1.EnvVar`: the zero value of `Value` is the empty string, of `ValueFrom` nil. -/
structure EnvVar where
  Name : String
  Value : String := ""
  ValueFrom : Option EnvVarSource := none
  deriving DecidableEq, Repr

/-- Type `resource.Quantity`, kept as the text it was parsed from. -/
structure Quantity where
  text : String
  deriving DecidableEq, Repr

/-- Function `resource.MustParse` on a well-formed literal (the program only passes the
literals `256Mi` and `200m`, on which the library function does not abort). -/
def MustParse (str : String) : Quantity := ⟨str⟩

/-- Type `corev1.ResourceList`, a Go map from resource name to quantity, as an association
list read through `ResourceList.get`. -/
abbrev ResourceList := List (String × Quantity)

/-- Map lookup `m[key]`: the first binding of `key`. -/
def ResourceList.get : ResourceList → String → Option Quantity
  | [], _ => none
  | (k, q) :: rest, key => if k = key then some q else ResourceList.get rest key

/-- Type `corev1.ResourceRequirements`. -/
structure ResourceRequirements where
  Requests : ResourceList := []
  Limits : ResourceList := []
  deriving DecidableEq, Repr

/-- Constant `corev1.PullIfNotPresent` (a `PullPolicy` is a Go string). -/
def PullIfNotPresent : String := "IfNotPresent"

/-- Type `corev1.Container`. -/
structure Container where
  Name : String := ""
  Image : String := ""
  ImagePullPolicy : String := ""
  Env : List EnvVar := []
  Resources : ResourceRequirements := {}
  deriving DecidableEq, Repr

/-- Type `corev1.PodSpec`. -/
structure PodSpec where
  InitContainers : List Container := []
  Containers : List Container := []
  deriving DecidableEq, Repr

/-- Type `corev1.Pod`: some object metadata and the spec. -/
structure Pod where
  Name : String := ""
  Namespace : String := ""
  Labels : List (String × String) := []
  Annotations : List (String × String) := []
  Spec : PodSpec := {}
  deriving DecidableEq, Repr

/-- Value of type `dynamic.Interface`, which `injectAgentSidecar` receives and ignores. -/
structure DynamicInterface where
  handle : Nat
  deriving DecidableEq, Repr

/-- Everything `getDefaultSidecarTemplate` and `injectAgentSidecar` read from outside:
the process environment (`os.Getenv`), the configuration store (`config.Datadog`), the
namespace lookup `apiCommon.GetMyNamespace()`, and the two constants declared elsewhere
(`config.DefaultSite`, `agentSidecarContainerName`). -/
structure Settings where
  Getenv : String → String
  GetString : String → String
  GetBool : String → Bool
  GetInt : String → Int
  GetMyNamespace : String
  DefaultSite : String
  agentSidecarContainerName : String

/-! ## Environment-variable overrides -/

/-- One override of `withEnvOverrides`: the entry of `env` with the override's name is
replaced at its position, and the override is appended when no entry has that name. -/
def overrideEnvVar : List EnvVar → EnvVar → List EnvVar
  | [], o => [o]
  | e :: rest, o => if e.Name = o.Name then o :: rest else e :: overrideEnvVar rest o

/-- Modelled from the spec: `withEnvOverrides` (declared in another file of the package,
absent here). Section 4.2: "for each override EnvVar, if an EnvVar with the same name
already exists in the container's env list, replace its value in place (preserving
position); otherwise append". Only the env list of the container changes. The returned
error, which `getDefaultSidecarTemplate` discards, is nil for a non-nil container. -/
def withEnvOverrides (container : Container) (extraEnv : List EnvVar) :
    Container × Option GoError :=
  ({ container with Env := extraEnv.foldl overrideEnvVar container.Env }, none)

/-! ## The template builder -/

/-- Function `getDefaultSidecarTemplate` of `agent_sidecar.go`. -/
def getDefaultSidecarTemplate (s : Settings) : Container :=
  let ddSite := s.Getenv "DD_SITE"
  let ddSite := if ddSite = "" then s.DefaultSite else ddSite
  let containerRegistry := s.GetString "admission_controller.agent_sidecar.container_registry"
  let imageName := s.GetString "admission_controller.agent_sidecar.image_name"
  let imageTag := s.GetString "admission_controller.agent_sidecar.image_tag"
  let agentContainer : Container :=
    { Env :=
        [ { Name := "DD_API_KEY",
            ValueFrom := some { SecretKeyRef := some { Key := "api-key", Name := "datadog-secret" } } },
          { Name := "DD_SITE", Value := ddSite },
          { Name := "DD_CLUSTER_NAME", Value := s.GetString "cluster_name" },
          { Name := "DD_KUBERNETES_KUBELET_NODENAME",
            ValueFrom := some { FieldRef := some { APIVersion := "v1", FieldPath := "spec.nodeName" } } } ],
      Image := containerRegistry ++ "/" ++ imageName ++ ":" ++ imageTag,
      ImagePullPolicy := PullIfNotPresent,
      Name := s.agentSidecarContainerName,
      Resources :=
        { Requests := [("memory", MustParse "256Mi"), ("cpu", MustParse "200m")],
          Limits := [("memory", MustParse "256Mi"), ("cpu", MustParse "200m")] } }
  let clusterAgentEnabled := s.GetBool "admission_controller.agent_sidecar.cluster_agent.enabled"
  if clusterAgentEnabled then
    let clusterAgentCmdPort := s.GetInt "cluster_agent.cmd_port"
    let clusterAgentServiceName := s.GetString "cluster_agent.kubernetes_service_name"
    (withEnvOverrides agentContainer
      [ { Name := "DD_CLUSTER_AGENT_ENABLED", Value := "true" },
        { Name := "DD_CLUSTER_AGENT_AUTH_TOKEN",
          ValueFrom := some { SecretKeyRef := some { Key := "token", Name := "datadog-secret" } } },
        { Name := "DD_CLUSTER_AGENT_URL",
          Value := "https://" ++ clusterAgentServiceName ++ "." ++ s.GetMyNamespace
                    ++ ".svc.cluster.local:" ++ toString clusterAgentCmdPort },
        { Name := "DD_ORCHESTRATOR_EXPLORER_ENABLED", Value := "true" } ]).1
  else
    agentContainer

/-! ## The injection decision -/

/-- A call made by `injectAgentSidecar`, with the container it passes where it passes one. -/
inductive Event where
  | logInfo (msg : String)
  | getDefaultSidecarTemplate
  | applyProviderOverrides (arg : Container)
  | applyProfileOverrides (arg : Container)
  deriving DecidableEq, Repr

/-- What a call of `injectAgentSidecar` leaves behind: the pod behind the pointer, the
returned error (`none` is Go nil) and the calls made, in order. -/
structure Outcome where
  pod : Option Pod
  err : Option GoError
  trace : List Event
  deriving DecidableEq, Repr

/-- An override step, `func(*corev1.Container) error`: the container it leaves behind the
pointer and the error it returns. `applyProviderOverrides` and `applyProfileOverrides` are
declared in other files of the package; `injectAgentSidecar` takes them as parameters. -/
abbrev Applier := Container → Container × Option GoError

/-- The loop `for _, container := range pod.Spec.Containers` of `injectAgentSidecar`:
true when it reaches a container named `name` (and returns early). -/
def sidecarAlreadyExists (name : String) : List Container → Bool
  | [] => false
  | container :: rest =>
    if container.Name = name then true else sidecarAlreadyExists name rest

/-- Function `injectAgentSidecar` of `agent_sidecar.go`. The string and the dynamic client
are the two arguments the Go function names `_`. -/
def injectAgentSidecar (s : Settings) (applyProviderOverrides applyProfileOverrides : Applier)
    (pod : Option Pod) (_ns : String) (_dc : DynamicInterface) : Outcome :=
  match pod with
  | none => ⟨none, some ⟨"can\x27t inject agent sidecar into nil pod"⟩, []⟩
  | some p =>
    if sidecarAlreadyExists s.agentSidecarContainerName p.Spec.Containers then
      ⟨some p, none,
        [Event.logInfo "skipping agent sidecar injection: agent sidecar already exists"]⟩
    else
      let agentSidecarContainer := getDefaultSidecarTemplate s
      match applyProviderOverrides agentSidecarContainer with
      | (_, some err) =>
        ⟨some p, some err,
          [Event.getDefaultSidecarTemplate, Event.applyProviderOverrides agentSidecarContainer]⟩
      | (afterProvider, none) =>
        match applyProfileOverrides afterProvider with
        | (_, some err) =>
          ⟨some p, some err,
            [Event.getDefaultSidecarTemplate, Event.applyProviderOverrides agentSidecarContainer,
              Event.applyProfileOverrides afterProvider]⟩
        | (afterProfile, none) =>
          ⟨some { p with Spec := { p.Spec with Containers := p.Spec.Containers ++ [afterProfile] } },
            none,
            [Event.getDefaultSidecarTemplate, Event.applyProviderOverrides agentSidecarContainer,
              Event.applyProfileOverrides afterProvider]⟩

/-! ## Observations on pods and containers -/

/-- The entries of an env list that carry the name `name`, in order. -/
def envNamed (name : String) (env : List EnvVar) : List EnvVar :=
  env.filter (fun e => decide (e.Name = name))

/-- Number of containers of a list that carry the name `name`. -/
def countNamed (name : String) (containers : List Container) : Nat :=
  (containers.filter (fun c => decide (c.Name = name))).length

/-- Running `injectAgentSidecar` twice in succession on the same pod pointer, with the
same settings and override steps: the second call sees the pod the first one left. -/
def injectTwice (s : Settings) (applyProviderOverrides applyProfileOverrides : Applier)
    (pod : Option Pod) (ns : String) (dc : DynamicInterface) : Outcome :=
  injectAgentSidecar s applyProviderOverrides applyProfileOverrides
    (injectAgentSidecar s applyProviderOverrides applyProfileOverrides pod ns dc).pod ns dc

/-- The telemetry-site chain in the words of the specification, section 4.1: the configured
site (key `site` of the configuration store) when set, else the process environment value
`DD_SITE` when set, else the compiled-in default. It is compared with what
`getDefaultSidecarTemplate` computes. -/
def specTelemetrySite (s : Settings) : String :=
  if s.GetString "site" ≠ "" then s.GetString "site"
  else if s.Getenv "DD_SITE" ≠ "" then s.Getenv "DD_SITE"
  else s.DefaultSite

/-! ## The override layer applier -/

/-- An override set of the specification, section 3: "an ordered sequence of EnvVar plus
optional resource requirement overrides". -/
structure OverrideSet where
  EnvVars : List EnvVar := []
  Resources : Option ResourceRequirements := none
  deriving DecidableEq, Repr

/-- Map assignment `m[key] = q`: replaces the binding of `key` or adds one. -/
def ResourceList.set : ResourceList → String → Quantity → ResourceList
  | [], key, q => [(key, q)]
  | (k, q0) :: rest, key, q =>
    if k = key then (key, q) :: rest else (k, q0) :: ResourceList.set rest key q

/-- Per-key merge of resource overrides into a resource list: each override entry is
assigned, entries under other keys stay. -/
def mergeResourceList (base overrides : ResourceList) : ResourceList :=
  overrides.foldl (fun m kv => ResourceList.set m kv.1 kv.2) base

/-- Modelled from the spec: the Override Layer Applier of section 4.2, which stands for
`applyProviderOverrides` and `applyProfileOverrides` (declared in other files of the
package, absent here). The override source is either malformed, and the step fails with
that error leaving the container as it was, or an override set: its env vars are merged by
`withEnvOverrides` and its resource overrides, when present, are merged per key into
requests and limits. -/
def applyOverrides (source : Except GoError OverrideSet) : Applier := fun container =>
  match source with
  | Except.error err => (container, some err)
  | Except.ok overrides =>
    let merged := (withEnvOverrides container overrides.EnvVars).1
    match overrides.Resources with
    | none => (merged, none)
    | some r =>
      ({ merged with
          Resources :=
            { Requests := mergeResourceList merged.Resources.Requests r.Requests,
              Limits := mergeResourceList merged.Resources.Limits r.Limits } }, none)

/-- The two override sources of the configuration surface (specification, section 6):
provider overrides and profile overrides, each as loaded from configuration. -/
structure OverrideSources where
  provider : Except GoError OverrideSet
  profile : Except GoError OverrideSet

/-- Modelled from the spec: `applyProviderOverrides` (absent here) is the Override Layer
Applier on the provider override source. -/
def applyProviderOverrides (sources : OverrideSources) : Applier :=
  applyOverrides sources.provider

/-- Modelled from the spec: `applyProfileOverrides` (absent here) is the Override Layer
Applier on the profile override source. -/
def applyProfileOverrides (sources : OverrideSources) : Applier :=
  applyOverrides sources.profile

/-! ## Concrete settings and pods used to run the definitions -/

/-- Settings of the default-configuration example: registry `gcr.io/datadoghq`, image
`agent`, tag `7`, cluster agent disabled, `DD_SITE` unset in the process environment and
a site `datadoghq.eu` in the configuration store. -/
def defaultSettings : Settings :=
  { Getenv := fun _ => "",
    GetString := fun key =>
      if key = "admission_controller.agent_sidecar.container_registry" then "gcr.io/datadoghq"
      else if key = "admission_controller.agent_sidecar.image_name" then "agent"
      else if key = "admission_controller.agent_sidecar.image_tag" then "7"
      else if key = "cluster_agent.kubernetes_service_name" then "datadog-cluster-agent"
      else if key = "cluster_name" then "prod"
      else if key = "site" then "datadoghq.eu"
      else "",
    GetBool := fun _ => false,
    GetInt := fun key => if key = "cluster_agent.cmd_port" then 5005 else 0,
    GetMyNamespace := "ns1",
    DefaultSite := "datadoghq.com",
    agentSidecarContainerName := "datadog-agent-injected" }

/-- The same settings with the cluster agent enabled. -/
def clusterAgentSettings : Settings :=
  { defaultSettings with GetBool := fun _ => true }

/-- An application container. -/
def appContainer : Container := { Name := "app", Image := "nginx:1.25" }

/-- A pod holding one application container and no sidecar. -/
def appPod : Pod := { Name := "web", Namespace := "shop", Spec := { Containers := [appContainer] } }

/-- A pod that already holds a container with the sidecar name, in first position. -/
def injectedPod : Pod :=
  { Name := "web", Namespace := "shop",
    Spec := { Containers := [{ Name := "datadog-agent-injected", Image := "other:1" }, appContainer] } }

/-- An override step that changes nothing and succeeds. -/
def noOverrides : Applier := fun container => (container, none)

/-- An override step that fails, as on an unsupported provider. -/
def failingOverrides : Applier := fun container => (container, some ⟨"unsupported provider"⟩)

/-- An override step that sets an image and succeeds. -/
def imageOverride : Applier := fun container => ({ container with Image := "custom/agent:1" }, none)

/-- A pod holding two containers that both carry the sidecar name. -/
def doubledPod : Pod :=
  { Name := "web", Namespace := "shop",
    Spec := { Containers := [{ Name := "datadog-agent-injected", Image := "a:1" },
                             { Name := "datadog-agent-injected", Image := "b:2" }] } }

/-- Override sources in which provider and profile both set `DD_SITE`, which the template
sets too, and the profile raises the memory request. -/
def siteOverrides : OverrideSources :=
  { provider := Except.ok { EnvVars := [{ Name := "DD_SITE", Value := "provider.example" },
                                        { Name := "DD_EKS_FARGATE", Value := "true" }] },
    profile := Except.ok { EnvVars := [{ Name := "DD_SITE", Value := "profile.example" }],
                           Resources := some { Requests := [("memory", MustParse "512Mi")] } } }

/-! ## Further observations: positions, value kinds -/

/-- Position of the first entry of an env list that carries `name`, if there is one. -/
def firstNamed (name : String) : List EnvVar → Option Nat
  | [] => none
  | e :: rest => if e.Name = name then some 0 else (firstNamed name rest).map (fun i => i + 1)

/-- An EnvVar carries a literal value when `Value` is set, or when no `ValueFrom` source
is given: the value is then the string in `Value`, the empty string included. -/
def carriesLiteral (e : EnvVar) : Bool :=
  decide (e.Value ≠ "") || e.ValueFrom.isNone

/-- An EnvVar carries a secret reference when its source has a `SecretKeyRef`. -/
def carriesSecretRef (e : EnvVar) : Bool :=
  match e.ValueFrom with
  | some source => source.SecretKeyRef.isSome
  | none => false

/-- An EnvVar carries a field reference when its source has a `FieldRef`. -/
def carriesFieldRef (e : EnvVar) : Bool :=
  match e.ValueFrom with
  | some source => source.FieldRef.isSome
  | none => false

/-- How many of the three value kinds of the specification, section 3 (literal value,
secret reference, field reference), an EnvVar carries. -/
def valueKinds (e : EnvVar) : Nat :=
  (if carriesLiteral e then 1 else 0) + (if carriesSecretRef e then 1 else 0)
    + (if carriesFieldRef e then 1 else 0)

/-- The log line of the already-present path of `injectAgentSidecar`. -/
def skipTrace : List Event :=
  [Event.logInfo "skipping agent sidecar injection: agent sidecar already exists"]

/-! ## Further concrete settings and pods -/

/-- Settings in which every configuration string is absent (empty), the cluster agent is
disabled and the process environment is empty. -/
def emptySettings : Settings :=
  { Getenv := fun _ => "",
    GetString := fun _ => "",
    GetBool := fun _ => false,
    GetInt := fun _ => 0,
    GetMyNamespace := "",
    DefaultSite := "datadoghq.com",
    agentSidecarContainerName := "datadog-agent-injected" }

/-- A pod whose only container with the sidecar name is an init container. -/
def initSidecarPod : Pod :=
  { Name := "web", Namespace := "shop",
    Spec := { InitContainers := [{ Name := "datadog-agent-injected", Image := "other:1" }],
              Containers := [appContainer] } }

/-- A pod with other metadata and init containers than `injectedPod`, whose containers
carry the same names as those of `injectedPod` with other images, env and resources. -/
def relabelledPod : Pod :=
  { Name := "api", Namespace := "billing", Labels := [("team", "pay")],
    Spec := { InitContainers := [appContainer],
              Containers :=
                [{ Name := "datadog-agent-injected", Image := "gcr.io/datadoghq/agent:7",
                   Env := [{ Name := "DD_SITE", Value := "datadoghq.eu" }],
                   Resources := { Limits := [("cpu", MustParse "1")] } },
                 { Name := "app", Image := "redis:7" }] } }

/-! ## The already-present scan -/

theorem sidecarAlreadyExists_iff (name : String) (containers : List Container) :
    sidecarAlreadyExists name containers = true ↔ ∃ c ∈ containers, c.Name = name := by
  induction containers with
  | nil => simp [sidecarAlreadyExists]
  | cons c rest ih =>
    by_cases h : c.Name = name
    · simp [sidecarAlreadyExists, h]
    · simp [sidecarAlreadyExists, h, ih]

theorem sidecarAlreadyExists_false_iff (name : String) (containers : List Container) :
    sidecarAlreadyExists name containers = false ↔ ∀ c ∈ containers, c.Name ≠ name := by
  rw [← Bool.not_eq_true, sidecarAlreadyExists_iff]
  simp

/-! ## Injection: nil pod, sidecar already present, failure, success -/

/-- C1: Called with a nil pod, `injectAgentSidecar` returns the error "can't inject agent
sidecar into nil pod" and has made no call at all: its trace is empty, so the template was
not built and no override step was invoked; the outcome is the same whatever the settings
and the override steps are. -/
theorem injectAgentSidecar_nil_pod (s : Settings) (applyProviderOverrides applyProfileOverrides : Applier)
    (ns : String) (dc : DynamicInterface) :
    (injectAgentSidecar s applyProviderOverrides applyProfileOverrides none ns dc).err
        = some ⟨"can\x27t inject agent sidecar into nil pod"⟩
      ∧ (injectAgentSidecar s applyProviderOverrides applyProfileOverrides none ns dc).trace = []
      ∧ (injectAgentSidecar s applyProviderOverrides applyProfileOverrides none ns dc).pod = none
      ∧ ∀ (s2 : Settings) (provider2 profile2 : Applier),
          injectAgentSidecar s2 provider2 profile2 none ns dc
            = injectAgentSidecar s applyProviderOverrides applyProfileOverrides none ns dc := by
  refine ⟨rfl, rfl, rfl, ?_⟩
  intro s2 provider2 profile2
  rfl

/-- C2: On a non-nil pod holding at least one container with the sidecar name,
`injectAgentSidecar` returns nil, leaves the pod as it was (same containers, same order) and
only logs: the template is not built and no override step is invoked. -/
theorem injectAgentSidecar_already_present (s : Settings)
    (applyProviderOverrides applyProfileOverrides : Applier) (p : Pod) (ns : String)
    (dc : DynamicInterface)
    (hpresent : ∃ c ∈ p.Spec.Containers, c.Name = s.agentSidecarContainerName) :
    injectAgentSidecar s applyProviderOverrides applyProfileOverrides (some p) ns dc
      = ⟨some p, none,
          [Event.logInfo "skipping agent sidecar injection: agent sidecar already exists"]⟩ := by
  have h := (sidecarAlreadyExists_iff s.agentSidecarContainerName p.Spec.Containers).mpr hpresent
  simp [injectAgentSidecar, h]

theorem injectAgentSidecar_already_present_witness :
    (∃ c ∈ injectedPod.Spec.Containers, c.Name = defaultSettings.agentSidecarContainerName)
      ∧ injectAgentSidecar defaultSettings failingOverrides imageOverride (some injectedPod)
          "shop" ⟨0⟩
        = ⟨some injectedPod, none,
            [Event.logInfo "skipping agent sidecar injection: agent sidecar already exists"]⟩ :=
  ⟨by decide,
    injectAgentSidecar_already_present defaultSettings failingOverrides imageOverride injectedPod
      "shop" ⟨0⟩ (by decide)⟩

/-- The three ways out of `injectAgentSidecar` once the scan found no sidecar: the provider
step fails. -/
theorem injectAgentSidecar_provider_error (s : Settings) (provider profile : Applier) (p : Pod)
    (ns : String) (dc : DynamicInterface) (e : GoError)
    (hscan : sidecarAlreadyExists s.agentSidecarContainerName p.Spec.Containers = false)
    (hprovider : (provider (getDefaultSidecarTemplate s)).2 = some e) :
    injectAgentSidecar s provider profile (some p) ns dc
      = ⟨some p, some e,
          [Event.getDefaultSidecarTemplate,
            Event.applyProviderOverrides (getDefaultSidecarTemplate s)]⟩ := by
  rcases hp : provider (getDefaultSidecarTemplate s) with ⟨c1, e1⟩
  rw [hp] at hprovider
  simp only at hprovider
  subst hprovider
  simp [injectAgentSidecar, hscan, hp]

/-- The provider step succeeds and the profile step fails. -/
theorem injectAgentSidecar_profile_error (s : Settings) (provider profile : Applier) (p : Pod)
    (ns : String) (dc : DynamicInterface) (e : GoError)
    (hscan : sidecarAlreadyExists s.agentSidecarContainerName p.Spec.Containers = false)
    (hprovider : (provider (getDefaultSidecarTemplate s)).2 = none)
    (hprofile : (profile (provider (getDefaultSidecarTemplate s)).1).2 = some e) :
    injectAgentSidecar s provider profile (some p) ns dc
      = ⟨some p, some e,
          [Event.getDefaultSidecarTemplate,
            Event.applyProviderOverrides (getDefaultSidecarTemplate s),
            Event.applyProfileOverrides (provider (getDefaultSidecarTemplate s)).1]⟩ := by
  rcases hp : provider (getDefaultSidecarTemplate s) with ⟨c1, e1⟩
  rw [hp] at hprovider hprofile
  simp only at hprovider hprofile
  subst hprovider
  rcases hq : profile c1 with ⟨c2, e2⟩
  rw [hq] at hprofile
  simp only at hprofile
  subst hprofile
  simp [injectAgentSidecar, hscan, hp, hq]

/-- Both steps succeed. -/
theorem injectAgentSidecar_success (s : Settings) (provider profile : Applier) (p : Pod)
    (ns : String) (dc : DynamicInterface)
    (hscan : sidecarAlreadyExists s.agentSidecarContainerName p.Spec.Containers = false)
    (hprovider : (provider (getDefaultSidecarTemplate s)).2 = none)
    (hprofile : (profile (provider (getDefaultSidecarTemplate s)).1).2 = none) :
    injectAgentSidecar s provider profile (some p) ns dc
      = ⟨some { p with Spec := { p.Spec with Containers := p.Spec.Containers
                  ++ [(profile (provider (getDefaultSidecarTemplate s)).1).1] } },
          none,
          [Event.getDefaultSidecarTemplate,
            Event.applyProviderOverrides (getDefaultSidecarTemplate s),
            Event.applyProfileOverrides (provider (getDefaultSidecarTemplate s)).1]⟩ := by
  rcases hp : provider (getDefaultSidecarTemplate s) with ⟨c1, e1⟩
  rw [hp] at hprovider hprofile
  simp only at hprovider hprofile
  subst hprovider
  rcases hq : profile c1 with ⟨c2, e2⟩
  rw [hq] at hprofile
  simp only at hprofile
  subst hprofile
  simp [injectAgentSidecar, hscan, hp, hq]

/-- C4: Atomicity on failure. On a non-nil pod with no container carrying the sidecar name,
when the provider step returns an error, or the provider step succeeds and the profile step
returns an error, `injectAgentSidecar` returns that same error and the pod is exactly what
it was: no container is appended. -/
theorem injectAgentSidecar_failure_atomic (s : Settings) (provider profile : Applier) (p : Pod)
    (ns : String) (dc : DynamicInterface) (e : GoError)
    (hno : ∀ c ∈ p.Spec.Containers, c.Name ≠ s.agentSidecarContainerName)
    (hfail : (provider (getDefaultSidecarTemplate s)).2 = some e
      ∨ ((provider (getDefaultSidecarTemplate s)).2 = none
          ∧ (profile (provider (getDefaultSidecarTemplate s)).1).2 = some e)) :
    (injectAgentSidecar s provider profile (some p) ns dc).err = some e
      ∧ (injectAgentSidecar s provider profile (some p) ns dc).pod = some p := by
  have hscan := (sidecarAlreadyExists_false_iff _ _).mpr hno
  rcases hfail with h | ⟨h1, h2⟩
  · rw [injectAgentSidecar_provider_error s provider profile p ns dc e hscan h]
    exact ⟨rfl, rfl⟩
  · rw [injectAgentSidecar_profile_error s provider profile p ns dc e hscan h1 h2]
    exact ⟨rfl, rfl⟩

theorem injectAgentSidecar_failure_atomic_witness :
    (injectAgentSidecar defaultSettings imageOverride failingOverrides (some appPod) "shop" ⟨7⟩).err
        = some ⟨"unsupported provider"⟩
      ∧ (injectAgentSidecar defaultSettings imageOverride failingOverrides (some appPod) "shop"
          ⟨7⟩).pod = some appPod :=
  injectAgentSidecar_failure_atomic defaultSettings imageOverride failingOverrides appPod "shop"
    ⟨7⟩ ⟨"unsupported provider"⟩ (by decide) (Or.inr ⟨by decide, by decide⟩)

/-- C5: Successful injection appends exactly one container at the end. On a non-nil pod with
no container carrying the sidecar name, when both override steps succeed,
`injectAgentSidecar` returns nil and the pod is the old pod with the container list
replaced by the old list followed by the finished sidecar container (the profile step's
result on the provider step's result on the template): the length grows by one and every
earlier position holds the container it held. -/
theorem injectAgentSidecar_success_appends (s : Settings) (provider profile : Applier) (p : Pod)
    (ns : String) (dc : DynamicInterface)
    (hno : ∀ c ∈ p.Spec.Containers, c.Name ≠ s.agentSidecarContainerName)
    (hprovider : (provider (getDefaultSidecarTemplate s)).2 = none)
    (hprofile : (profile (provider (getDefaultSidecarTemplate s)).1).2 = none) :
    (injectAgentSidecar s provider profile (some p) ns dc).err = none
      ∧ ∃ p2 : Pod, (injectAgentSidecar s provider profile (some p) ns dc).pod = some p2
        ∧ p2 = { p with Spec := { p.Spec with Containers := p.Spec.Containers
                  ++ [(profile (provider (getDefaultSidecarTemplate s)).1).1] } }
        ∧ p2.Spec.Containers.length = p.Spec.Containers.length + 1
        ∧ (∀ i, i < p.Spec.Containers.length → p2.Spec.Containers[i]? = p.Spec.Containers[i]?)
        ∧ p2.Spec.Containers[p.Spec.Containers.length]?
            = some (profile (provider (getDefaultSidecarTemplate s)).1).1 := by
  have hscan := (sidecarAlreadyExists_false_iff _ _).mpr hno
  rw [injectAgentSidecar_success s provider profile p ns dc hscan hprovider hprofile]
  refine ⟨rfl, _, rfl, rfl, ?_, ?_, ?_⟩
  · simp
  · intro i hi
    simp [List.getElem?_append_left hi]
  · simp

theorem injectAgentSidecar_success_appends_witness :
    (injectAgentSidecar defaultSettings noOverrides imageOverride (some appPod) "shop" ⟨7⟩).err
        = none
      ∧ ∃ p2 : Pod,
        (injectAgentSidecar defaultSettings noOverrides imageOverride (some appPod) "shop" ⟨7⟩).pod
          = some p2
        ∧ p2 = { appPod with Spec := { appPod.Spec with Containers := appPod.Spec.Containers
                  ++ [(imageOverride (noOverrides (getDefaultSidecarTemplate defaultSettings)).1).1] } }
        ∧ p2.Spec.Containers.length = appPod.Spec.Containers.length + 1
        ∧ (∀ i, i < appPod.Spec.Containers.length →
            p2.Spec.Containers[i]? = appPod.Spec.Containers[i]?)
        ∧ p2.Spec.Containers[appPod.Spec.Containers.length]?
            = some (imageOverride (noOverrides (getDefaultSidecarTemplate defaultSettings)).1).1 :=
  injectAgentSidecar_success_appends defaultSettings noOverrides imageOverride appPod "shop" ⟨7⟩
    (by decide) (by decide) (by decide)

/-! ## The template builder -/

/-- The template with the cluster agent disabled: the container literal itself. -/
theorem getDefaultSidecarTemplate_disabled (s : Settings)
    (hflag : s.GetBool "admission_controller.agent_sidecar.cluster_agent.enabled" = false) :
    getDefaultSidecarTemplate s =
      { Env :=
          [ { Name := "DD_API_KEY",
              ValueFrom := some { SecretKeyRef := some { Key := "api-key", Name := "datadog-secret" } } },
            { Name := "DD_SITE",
              Value := if s.Getenv "DD_SITE" = "" then s.DefaultSite else s.Getenv "DD_SITE" },
            { Name := "DD_CLUSTER_NAME", Value := s.GetString "cluster_name" },
            { Name := "DD_KUBERNETES_KUBELET_NODENAME",
              ValueFrom := some { FieldRef := some { APIVersion := "v1", FieldPath := "spec.nodeName" } } } ],
        Image := s.GetString "admission_controller.agent_sidecar.container_registry" ++ "/"
          ++ s.GetString "admission_controller.agent_sidecar.image_name" ++ ":"
          ++ s.GetString "admission_controller.agent_sidecar.image_tag",
        ImagePullPolicy := PullIfNotPresent,
        Name := s.agentSidecarContainerName,
        Resources :=
          { Requests := [("memory", MustParse "256Mi"), ("cpu", MustParse "200m")],
            Limits := [("memory", MustParse "256Mi"), ("cpu", MustParse "200m")] } } := by
  simp [getDefaultSidecarTemplate, hflag]

/-- The template with the cluster agent enabled: the four cluster-agent variables follow
the four base ones, the other fields are those of the container literal. -/
theorem getDefaultSidecarTemplate_enabled (s : Settings)
    (hflag : s.GetBool "admission_controller.agent_sidecar.cluster_agent.enabled" = true) :
    getDefaultSidecarTemplate s =
      { Env :=
          [ { Name := "DD_API_KEY",
              ValueFrom := some { SecretKeyRef := some { Key := "api-key", Name := "datadog-secret" } } },
            { Name := "DD_SITE",
              Value := if s.Getenv "DD_SITE" = "" then s.DefaultSite else s.Getenv "DD_SITE" },
            { Name := "DD_CLUSTER_NAME", Value := s.GetString "cluster_name" },
            { Name := "DD_KUBERNETES_KUBELET_NODENAME",
              ValueFrom := some { FieldRef := some { APIVersion := "v1", FieldPath := "spec.nodeName" } } },
            { Name := "DD_CLUSTER_AGENT_ENABLED", Value := "true" },
            { Name := "DD_CLUSTER_AGENT_AUTH_TOKEN",
              ValueFrom := some { SecretKeyRef := some { Key := "token", Name := "datadog-secret" } } },
            { Name := "DD_CLUSTER_AGENT_URL",
              Value := "https://" ++ s.GetString "cluster_agent.kubernetes_service_name" ++ "."
                        ++ s.GetMyNamespace ++ ".svc.cluster.local:"
                        ++ toString (s.GetInt "cluster_agent.cmd_port") },
            { Name := "DD_ORCHESTRATOR_EXPLORER_ENABLED", Value := "true" } ],
        Image := s.GetString "admission_controller.agent_sidecar.container_registry" ++ "/"
          ++ s.GetString "admission_controller.agent_sidecar.image_name" ++ ":"
          ++ s.GetString "admission_controller.agent_sidecar.image_tag",
        ImagePullPolicy := PullIfNotPresent,
        Name := s.agentSidecarContainerName,
        Resources :=
          { Requests := [("memory", MustParse "256Mi"), ("cpu", MustParse "200m")],
            Limits := [("memory", MustParse "256Mi"), ("cpu", MustParse "200m")] } } := by
  simp [getDefaultSidecarTemplate, hflag, withEnvOverrides, overrideEnvVar]

/-- C7: For every configuration, with the cluster agent enabled or not, the template's image
is registry ++ "/" ++ image name ++ ":" ++ image tag, its pull policy is IfNotPresent and
its name is the sidecar container name constant. -/
theorem getDefaultSidecarTemplate_image_policy_name (s : Settings) :
    (getDefaultSidecarTemplate s).Image
        = s.GetString "admission_controller.agent_sidecar.container_registry" ++ "/"
          ++ s.GetString "admission_controller.agent_sidecar.image_name" ++ ":"
          ++ s.GetString "admission_controller.agent_sidecar.image_tag"
      ∧ (getDefaultSidecarTemplate s).ImagePullPolicy = "IfNotPresent"
      ∧ (getDefaultSidecarTemplate s).Name = s.agentSidecarContainerName := by
  cases hflag : s.GetBool "admission_controller.agent_sidecar.cluster_agent.enabled"
  · rw [getDefaultSidecarTemplate_disabled s hflag]
    exact ⟨rfl, rfl, rfl⟩
  · rw [getDefaultSidecarTemplate_enabled s hflag]
    exact ⟨rfl, rfl, rfl⟩

/-- The example of the specification: registry `gcr.io/datadoghq`, image `agent`, tag `7`
give the image `gcr.io/datadoghq/agent:7`, with the cluster agent disabled and enabled. -/
theorem getDefaultSidecarTemplate_image_example :
    (getDefaultSidecarTemplate defaultSettings).Image = "gcr.io/datadoghq/agent:7"
      ∧ (getDefaultSidecarTemplate clusterAgentSettings).Image = "gcr.io/datadoghq/agent:7" := by
  decide

/-- C8: With the cluster-agent flag disabled the template has exactly four environment
variables, in this order: DD_API_KEY, a secret reference to key "api-key" of secret
"datadog-secret"; DD_SITE, a literal; DD_CLUSTER_NAME, a literal equal to the configured
cluster name; DD_KUBERNETES_KUBELET_NODENAME, a field reference to spec.nodeName with no
literal value. -/
theorem getDefaultSidecarTemplate_base_env (s : Settings)
    (hflag : s.GetBool "admission_controller.agent_sidecar.cluster_agent.enabled" = false) :
    (getDefaultSidecarTemplate s).Env =
      [ { Name := "DD_API_KEY", Value := "",
          ValueFrom := some { FieldRef := none,
                              SecretKeyRef := some { Name := "datadog-secret", Key := "api-key" } } },
        { Name := "DD_SITE",
          Value := if s.Getenv "DD_SITE" = "" then s.DefaultSite else s.Getenv "DD_SITE",
          ValueFrom := none },
        { Name := "DD_CLUSTER_NAME", Value := s.GetString "cluster_name", ValueFrom := none },
        { Name := "DD_KUBERNETES_KUBELET_NODENAME", Value := "",
          ValueFrom := some { FieldRef := some { APIVersion := "v1", FieldPath := "spec.nodeName" },
                              SecretKeyRef := none } } ]
      ∧ (getDefaultSidecarTemplate s).Env.length = 4 := by
  rw [getDefaultSidecarTemplate_disabled s hflag]
  exact ⟨rfl, rfl⟩

theorem getDefaultSidecarTemplate_base_env_witness :
    (getDefaultSidecarTemplate defaultSettings).Env =
      [ { Name := "DD_API_KEY", Value := "",
          ValueFrom := some { FieldRef := none,
                              SecretKeyRef := some { Name := "datadog-secret", Key := "api-key" } } },
        { Name := "DD_SITE",
          Value := if defaultSettings.Getenv "DD_SITE" = "" then defaultSettings.DefaultSite
                   else defaultSettings.Getenv "DD_SITE",
          ValueFrom := none },
        { Name := "DD_CLUSTER_NAME", Value := defaultSettings.GetString "cluster_name",
          ValueFrom := none },
        { Name := "DD_KUBERNETES_KUBELET_NODENAME", Value := "",
          ValueFrom := some { FieldRef := some { APIVersion := "v1", FieldPath := "spec.nodeName" },
                              SecretKeyRef := none } } ]
      ∧ (getDefaultSidecarTemplate defaultSettings).Env.length = 4 :=
  getDefaultSidecarTemplate_base_env defaultSettings (by decide)

/-- C9: For every configuration the template's resource requests and limits are equal, and
as mappings each binds exactly memory to 256Mi and cpu to 200m and no other key. -/
theorem getDefaultSidecarTemplate_resources (s : Settings) :
    (getDefaultSidecarTemplate s).Resources.Requests = (getDefaultSidecarTemplate s).Resources.Limits
      ∧ (∀ key : String, (getDefaultSidecarTemplate s).Resources.Requests.get key
            = if key = "memory" then some (MustParse "256Mi")
              else if key = "cpu" then some (MustParse "200m") else none)
      ∧ (∀ key : String, (getDefaultSidecarTemplate s).Resources.Limits.get key
            = if key = "memory" then some (MustParse "256Mi")
              else if key = "cpu" then some (MustParse "200m") else none)
      ∧ (getDefaultSidecarTemplate s).Resources.Requests.map Prod.fst = ["memory", "cpu"]
      ∧ (getDefaultSidecarTemplate s).Resources.Limits.map Prod.fst = ["memory", "cpu"] := by
  have hget : ∀ key : String,
      ResourceList.get [("memory", MustParse "256Mi"), ("cpu", MustParse "200m")] key
        = if key = "memory" then some (MustParse "256Mi")
          else if key = "cpu" then some (MustParse "200m") else none := by
    intro key
    simp only [ResourceList.get]
    by_cases h1 : key = "memory"
    · simp [h1]
    · by_cases h2 : key = "cpu"
      · simp [h2]
      · simp [h1, h2, Ne.symm h1, Ne.symm h2]
  cases hflag : s.GetBool "admission_controller.agent_sidecar.cluster_agent.enabled"
  · rw [getDefaultSidecarTemplate_disabled s hflag]
    exact ⟨rfl, hget, hget, rfl, rfl⟩
  · rw [getDefaultSidecarTemplate_enabled s hflag]
    exact ⟨rfl, hget, hget, rfl, rfl⟩

/-- C10 (as stated, refuted): with `DD_SITE` unset in the process environment and the site
`datadoghq.eu` set in the configuration store, the chain of the claim gives the configured
site `datadoghq.eu`, while the template's only DD_SITE variable carries the compiled-in
default `datadoghq.com`: the configured site is not read. -/
theorem getDefaultSidecarTemplate_ignores_configured_site :
    defaultSettings.GetString "site" = "datadoghq.eu"
      ∧ defaultSettings.Getenv "DD_SITE" = ""
      ∧ specTelemetrySite defaultSettings = "datadoghq.eu"
      ∧ envNamed "DD_SITE" (getDefaultSidecarTemplate defaultSettings).Env
          = [{ Name := "DD_SITE", Value := "datadoghq.com" }]
      ∧ ¬ (∀ s : Settings, ∃ e ∈ (getDefaultSidecarTemplate s).Env,
            e.Name = "DD_SITE" ∧ e.Value = specTelemetrySite s) := by
  refine ⟨by decide, by decide, by decide, by decide, ?_⟩
  intro h
  obtain ⟨e, he, hname, hvalue⟩ := h defaultSettings
  revert e
  decide

/-- C10 (amended): for every configuration, with the cluster agent enabled or not, the
template has exactly one environment variable named DD_SITE; it is a literal equal to the
process environment value `DD_SITE` when that is non-empty and to the compiled-in default
site otherwise. No key of the configuration store enters this value. -/
theorem getDefaultSidecarTemplate_site (s : Settings) :
    envNamed "DD_SITE" (getDefaultSidecarTemplate s).Env
      = [{ Name := "DD_SITE",
           Value := if s.Getenv "DD_SITE" = "" then s.DefaultSite else s.Getenv "DD_SITE",
           ValueFrom := none }] := by
  cases hflag : s.GetBool "admission_controller.agent_sidecar.cluster_agent.enabled"
  · rw [getDefaultSidecarTemplate_disabled s hflag]
    rfl
  · rw [getDefaultSidecarTemplate_enabled s hflag]
    rfl

/-! ## Environment-variable overrides: entries per name -/

theorem envNamed_overrideEnvVar_same (name : String) (env : List EnvVar) (o : EnvVar)
    (h : o.Name = name) :
    envNamed name (overrideEnvVar env o) = o :: (envNamed name env).tail := by
  induction env with
  | nil => simp [overrideEnvVar, envNamed, h]
  | cons e rest ih =>
    by_cases he : e.Name = o.Name
    · have hen : e.Name = name := he.trans h
      simp [overrideEnvVar, envNamed, he, h, hen]
    · have hen : e.Name ≠ name := fun hc => he (hc.trans h.symm)
      simp only [envNamed] at ih
      simp [overrideEnvVar, envNamed, he, hen, ih]

theorem envNamed_overrideEnvVar_other (name : String) (env : List EnvVar) (o : EnvVar)
    (h : o.Name ≠ name) :
    envNamed name (overrideEnvVar env o) = envNamed name env := by
  induction env with
  | nil => simp [overrideEnvVar, envNamed, h]
  | cons e rest ih =>
    by_cases he : e.Name = o.Name
    · have hen : e.Name ≠ name := fun hc => h (he.symm.trans hc)
      simp [overrideEnvVar, envNamed, he, h, hen]
    · simp only [envNamed] at ih
      by_cases hen : e.Name = name
      · have hno : ¬ name = o.Name := fun hc => h hc.symm
        simp [overrideEnvVar, envNamed, hen, hno, ih]
      · simp [overrideEnvVar, envNamed, he, hen, ih]

/-- Overrides of other names leave the entries of `name` as they are. -/
theorem envNamed_foldl_none (name : String) (overrides env : List EnvVar)
    (h : envNamed name overrides = []) :
    envNamed name (overrides.foldl overrideEnvVar env) = envNamed name env := by
  induction overrides generalizing env with
  | nil => rfl
  | cons o rest ih =>
    have ho : o.Name ≠ name := by
      intro hc
      simp [envNamed, hc] at h
    have hrest : envNamed name rest = [] := by
      simpa [envNamed, ho] using h
    rw [List.foldl_cons, ih _ hrest, envNamed_overrideEnvVar_other name env o ho]

/-- A list with at most one entry of `name` keeps at most one through any overrides. -/
theorem envNamed_foldl_length_le_one (name : String) (overrides env : List EnvVar)
    (h : (envNamed name env).length ≤ 1) :
    (envNamed name (overrides.foldl overrideEnvVar env)).length ≤ 1 := by
  induction overrides generalizing env with
  | nil => exact h
  | cons o rest ih =>
    rw [List.foldl_cons]
    apply ih
    by_cases ho : o.Name = name
    · rw [envNamed_overrideEnvVar_same name env o ho]
      simp only [List.length_cons, List.length_tail]
      omega
    · rw [envNamed_overrideEnvVar_other name env o ho]
      exact h

/-- Last writer visible: on a list with at most one entry of `name`, after the overrides
the only entry of `name` is the last override of that name. -/
theorem envNamed_foldl_last (name : String) (overrides env : List EnvVar) (e : EnvVar)
    (h : (envNamed name env).length ≤ 1)
    (hlast : (envNamed name overrides).getLast? = some e) :
    envNamed name (overrides.foldl overrideEnvVar env) = [e] := by
  induction overrides generalizing env with
  | nil => simp [envNamed] at hlast
  | cons o rest ih =>
    rw [List.foldl_cons]
    by_cases ho : o.Name = name
    · have hstep : envNamed name (overrideEnvVar env o) = [o] := by
        rw [envNamed_overrideEnvVar_same name env o ho]
        have : (envNamed name env).tail.length = 0 := by
          rw [List.length_tail]
          omega
        rw [List.length_eq_zero.mp this]
      have hcons : envNamed name (o :: rest) = o :: envNamed name rest := by
        simp [envNamed, ho]
      rw [hcons] at hlast
      cases hrest : envNamed name rest with
      | nil =>
        rw [hrest] at hlast
        simp at hlast
        rw [envNamed_foldl_none name rest _ hrest, hstep, hlast]
      | cons r rs =>
        rw [hrest, List.getLast?_cons_cons] at hlast
        rw [← hrest] at hlast
        exact ih _ (by rw [hstep]; simp) hlast
    · have hcons : envNamed name (o :: rest) = envNamed name rest := by
        simp [envNamed, ho]
      rw [hcons] at hlast
      exact ih _ (by rw [envNamed_overrideEnvVar_other name env o ho]; exact h) hlast

/-- Distinct names give at most one entry per name. -/
theorem envNamed_length_le_one_of_nodup (name : String) (env : List EnvVar)
    (h : (env.map (fun e => e.Name)).Nodup) : (envNamed name env).length ≤ 1 := by
  induction env with
  | nil => simp [envNamed]
  | cons e rest ih =>
    rw [List.map_cons, List.nodup_cons] at h
    by_cases he : e.Name = name
    · have hrest : envNamed name rest = [] := by
        simp only [envNamed, List.filter_eq_nil_iff, decide_eq_true_eq]
        intro x hx hxn
        exact h.1 (List.mem_map.mpr ⟨x, hx, hxn.trans he.symm⟩)
      simp only [envNamed] at hrest
      simp [envNamed, he, hrest]
    · have := ih h.2
      simp only [envNamed] at this
      simp [envNamed, he, this]

/-- The names of the template's environment variables are pairwise distinct. -/
theorem getDefaultSidecarTemplate_env_names_nodup (s : Settings) :
    ((getDefaultSidecarTemplate s).Env.map (fun e => e.Name)).Nodup := by
  cases hflag : s.GetBool "admission_controller.agent_sidecar.cluster_agent.enabled"
  · rw [getDefaultSidecarTemplate_disabled s hflag]
    simp
  · rw [getDefaultSidecarTemplate_enabled s hflag]
    simp

/-! ## The override layer applier -/

theorem applyOverrides_ok_err (overrides : OverrideSet) (c : Container) :
    (applyOverrides (Except.ok overrides) c).2 = none := by
  cases hres : overrides.Resources <;> simp [applyOverrides, hres]

theorem applyOverrides_ok_env (overrides : OverrideSet) (c : Container) :
    (applyOverrides (Except.ok overrides) c).1.Env
      = overrides.EnvVars.foldl overrideEnvVar c.Env := by
  cases hres : overrides.Resources <;> simp [applyOverrides, hres, withEnvOverrides]

theorem applyOverrides_name (source : Except GoError OverrideSet) (c : Container) :
    (applyOverrides source c).1.Name = c.Name := by
  cases source with
  | error err => rfl
  | ok overrides =>
    cases hres : overrides.Resources <;> simp [applyOverrides, hres, withEnvOverrides]

/-! ## Override precedence -/

/-- C6: Override precedence. When both override sources load, on a non-nil pod with no
sidecar, for every environment-variable name present in the provider override set and in
the profile override set, `injectAgentSidecar` succeeds and appends a container whose only
entry of that name is the profile override for that name (the last one, should the profile
set name it several times): not the provider's entry, not the template's. -/
theorem injectAgentSidecar_profile_precedence (s : Settings) (sources : OverrideSources)
    (providerSet profileSet : OverrideSet) (p : Pod) (ns : String) (dc : DynamicInterface)
    (name : String) (e : EnvVar)
    (hno : ∀ c ∈ p.Spec.Containers, c.Name ≠ s.agentSidecarContainerName)
    (hprovider : sources.provider = Except.ok providerSet)
    (hprofile : sources.profile = Except.ok profileSet)
    (_hinProvider : ∃ o ∈ providerSet.EnvVars, o.Name = name)
    (hlast : (envNamed name profileSet.EnvVars).getLast? = some e) :
    ∃ c : Container,
      injectAgentSidecar s (applyProviderOverrides sources) (applyProfileOverrides sources)
          (some p) ns dc
        = ⟨some { p with Spec := { p.Spec with Containers := p.Spec.Containers ++ [c] } }, none,
            [Event.getDefaultSidecarTemplate,
              Event.applyProviderOverrides (getDefaultSidecarTemplate s),
              Event.applyProfileOverrides
                (applyProviderOverrides sources (getDefaultSidecarTemplate s)).1]⟩
      ∧ envNamed name c.Env = [e]
      ∧ ∀ e2 ∈ c.Env, e2.Name = name → e2 = e := by
  have hscan := (sidecarAlreadyExists_false_iff _ _).mpr hno
  have h1 : (applyProviderOverrides sources (getDefaultSidecarTemplate s)).2 = none := by
    rw [applyProviderOverrides, hprovider]
    exact applyOverrides_ok_err _ _
  have h2 : (applyProfileOverrides sources
      (applyProviderOverrides sources (getDefaultSidecarTemplate s)).1).2 = none := by
    rw [applyProfileOverrides, hprofile]
    exact applyOverrides_ok_err _ _
  have henv : envNamed name (applyProfileOverrides sources
      (applyProviderOverrides sources (getDefaultSidecarTemplate s)).1).1.Env = [e] := by
    rw [applyProfileOverrides, hprofile, applyOverrides_ok_env, applyProviderOverrides,
      hprovider, applyOverrides_ok_env]
    apply envNamed_foldl_last name _ _ e _ hlast
    apply envNamed_foldl_length_le_one
    exact envNamed_length_le_one_of_nodup name _ (getDefaultSidecarTemplate_env_names_nodup s)
  refine ⟨_, injectAgentSidecar_success s _ _ p ns dc hscan h1 h2, henv, ?_⟩
  intro e2 hmem hname
  have hin : e2 ∈ envNamed name (applyProfileOverrides sources
      (applyProviderOverrides sources (getDefaultSidecarTemplate s)).1).1.Env := by
    simp only [envNamed, List.mem_filter, decide_eq_true_eq]
    exact ⟨hmem, hname⟩
  rw [henv] at hin
  simpa using hin

theorem injectAgentSidecar_profile_precedence_witness :
    ∃ c : Container,
      injectAgentSidecar defaultSettings (applyProviderOverrides siteOverrides)
          (applyProfileOverrides siteOverrides) (some appPod) "shop" ⟨7⟩
        = ⟨some { appPod with
              Spec := { appPod.Spec with Containers := appPod.Spec.Containers ++ [c] } }, none,
            [Event.getDefaultSidecarTemplate,
              Event.applyProviderOverrides (getDefaultSidecarTemplate defaultSettings),
              Event.applyProfileOverrides
                (applyProviderOverrides siteOverrides
                  (getDefaultSidecarTemplate defaultSettings)).1]⟩
      ∧ envNamed "DD_SITE" c.Env = [{ Name := "DD_SITE", Value := "profile.example" }]
      ∧ ∀ e2 ∈ c.Env, e2.Name = "DD_SITE"
          → e2 = { Name := "DD_SITE", Value := "profile.example" } :=
  injectAgentSidecar_profile_precedence defaultSettings siteOverrides
    { EnvVars := [{ Name := "DD_SITE", Value := "provider.example" },
                  { Name := "DD_EKS_FARGATE", Value := "true" }] }
    { EnvVars := [{ Name := "DD_SITE", Value := "profile.example" }],
      Resources := some { Requests := [("memory", MustParse "512Mi")] } }
    appPod "shop" ⟨7⟩ "DD_SITE" { Name := "DD_SITE", Value := "profile.example" }
    (by decide) rfl rfl (by decide) (by decide)

/-! ## Idempotence -/

theorem countNamed_eq_zero_of_scan (name : String) (containers : List Container)
    (h : sidecarAlreadyExists name containers = false) : countNamed name containers = 0 := by
  have hno := (sidecarAlreadyExists_false_iff name containers).mp h
  simp only [countNamed, List.length_eq_zero, List.filter_eq_nil_iff, decide_eq_true_eq]
  exact hno

theorem countNamed_pos_of_scan (name : String) (containers : List Container)
    (h : sidecarAlreadyExists name containers = true) : 0 < countNamed name containers := by
  obtain ⟨c, hc, hname⟩ := (sidecarAlreadyExists_iff name containers).mp h
  simp only [countNamed]
  apply List.length_pos_of_mem (a := c)
  simp [List.mem_filter, hc, hname]

theorem countNamed_append_singleton (name : String) (containers : List Container)
    (c : Container) (h : c.Name = name) :
    countNamed name (containers ++ [c]) = countNamed name containers + 1 := by
  simp [countNamed, h]

/-- C3 (as stated, refuted): two pods on which running `injectAgentSidecar` twice does not
leave exactly one container with the sidecar name. On `appPod` with a failing provider step
both runs fail and the pod keeps its containers, none of which is the sidecar; on
`doubledPod`, which holds two containers with the sidecar name, both runs skip and the pod
keeps the two. -/
theorem injectTwice_not_exactly_one_sidecar :
    ((injectTwice defaultSettings failingOverrides noOverrides (some appPod) "shop" ⟨7⟩).pod
        = some appPod
      ∧ (injectTwice defaultSettings failingOverrides noOverrides (some appPod) "shop" ⟨7⟩).err
        = some ⟨"unsupported provider"⟩
      ∧ countNamed defaultSettings.agentSidecarContainerName appPod.Spec.Containers = 0)
    ∧ ((injectTwice defaultSettings noOverrides noOverrides (some doubledPod) "shop" ⟨7⟩).pod
        = some doubledPod
      ∧ countNamed defaultSettings.agentSidecarContainerName doubledPod.Spec.Containers = 2) := by
  decide

/-- C3 (amended): Idempotence. For every non-nil pod and fixed settings and override steps
that leave the container's name as it is, running `injectAgentSidecar` twice in succession
leaves the same pod and returns the same error as running it once; and when the run returns
nil on a pod that held at most one container with the sidecar name, the pod it leaves
contains exactly one container with the sidecar name. -/
theorem injectAgentSidecar_idempotent (s : Settings) (provider profile : Applier) (p : Pod)
    (ns : String) (dc : DynamicInterface)
    (hprovider : ∀ c, (provider c).1.Name = c.Name)
    (hprofile : ∀ c, (profile c).1.Name = c.Name) :
    (injectTwice s provider profile (some p) ns dc).pod
        = (injectAgentSidecar s provider profile (some p) ns dc).pod
      ∧ (injectTwice s provider profile (some p) ns dc).err
        = (injectAgentSidecar s provider profile (some p) ns dc).err
      ∧ ((injectAgentSidecar s provider profile (some p) ns dc).err = none
          → countNamed s.agentSidecarContainerName p.Spec.Containers ≤ 1
          → ∃ p2 : Pod, (injectAgentSidecar s provider profile (some p) ns dc).pod = some p2
              ∧ countNamed s.agentSidecarContainerName p2.Spec.Containers = 1) := by
  cases hscan : sidecarAlreadyExists s.agentSidecarContainerName p.Spec.Containers
  · -- no sidecar yet
    cases h1 : (provider (getDefaultSidecarTemplate s)).2 with
    | some e =>
      have hrun := injectAgentSidecar_provider_error s provider profile p ns dc e hscan h1
      simp only [injectTwice, hrun]
      simp
    | none =>
      cases h2 : (profile (provider (getDefaultSidecarTemplate s)).1).2 with
      | some e =>
        have hrun := injectAgentSidecar_profile_error s provider profile p ns dc e hscan h1 h2
        simp only [injectTwice, hrun]
        simp
      | none =>
        have hrun := injectAgentSidecar_success s provider profile p ns dc hscan h1 h2
        have hname : (profile (provider (getDefaultSidecarTemplate s)).1).1.Name
            = s.agentSidecarContainerName := by
          rw [hprofile, hprovider]
          cases hflag : s.GetBool "admission_controller.agent_sidecar.cluster_agent.enabled"
          · rw [getDefaultSidecarTemplate_disabled s hflag]
          · rw [getDefaultSidecarTemplate_enabled s hflag]
        have hpresent : ∃ c ∈ p.Spec.Containers
            ++ [(profile (provider (getDefaultSidecarTemplate s)).1).1],
            c.Name = s.agentSidecarContainerName :=
          ⟨_, by simp, hname⟩
        have hscan2 := (sidecarAlreadyExists_iff _ _).mpr hpresent
        have hcount := countNamed_append_singleton s.agentSidecarContainerName
          p.Spec.Containers _ hname
        rw [countNamed_eq_zero_of_scan _ _ hscan] at hcount
        simp only [injectTwice, hrun]
        refine ⟨?_, ?_, ?_⟩
        · simp [injectAgentSidecar, hscan2]
        · simp [injectAgentSidecar, hscan2]
        · intro _ _
          exact ⟨_, rfl, hcount⟩
  · -- a container with the sidecar name is there
    have hrun : injectAgentSidecar s provider profile (some p) ns dc
        = ⟨some p, none,
            [Event.logInfo "skipping agent sidecar injection: agent sidecar already exists"]⟩ := by
      simp [injectAgentSidecar, hscan]
    simp only [injectTwice, hrun]
    refine ⟨trivial, trivial, ?_⟩
    intro _ hle
    have hpos := countNamed_pos_of_scan _ _ hscan
    exact ⟨p, rfl, by omega⟩

theorem injectAgentSidecar_idempotent_witness :
    (injectTwice defaultSettings noOverrides imageOverride (some appPod) "shop" ⟨7⟩).pod
        = (injectAgentSidecar defaultSettings noOverrides imageOverride (some appPod) "shop"
            ⟨7⟩).pod
      ∧ (injectTwice defaultSettings noOverrides imageOverride (some appPod) "shop" ⟨7⟩).err
        = (injectAgentSidecar defaultSettings noOverrides imageOverride (some appPod) "shop"
            ⟨7⟩).err
      ∧ ((injectAgentSidecar defaultSettings noOverrides imageOverride (some appPod) "shop"
            ⟨7⟩).err = none
          → countNamed defaultSettings.agentSidecarContainerName appPod.Spec.Containers ≤ 1
          → ∃ p2 : Pod,
              (injectAgentSidecar defaultSettings noOverrides imageOverride (some appPod) "shop"
                ⟨7⟩).pod = some p2
              ∧ countNamed defaultSettings.agentSidecarContainerName p2.Spec.Containers = 1) :=
  injectAgentSidecar_idempotent defaultSettings noOverrides imageOverride appPod "shop" ⟨7⟩
    (fun _ => rfl) (fun _ => rfl)

/-! ## The cluster-agent variables -/

/-- C11: With the cluster-agent flag enabled the template has exactly eight environment
variables: the four base ones followed, in order, by DD_CLUSTER_AGENT_ENABLED = "true",
DD_CLUSTER_AGENT_AUTH_TOKEN as a secret reference to key "token" of secret
"datadog-secret", DD_CLUSTER_AGENT_URL = "https://" ++ service name ++ "." ++ own
namespace ++ ".svc.cluster.local:" ++ decimal command port, and
DD_ORCHESTRATOR_EXPLORER_ENABLED = "true". -/
theorem getDefaultSidecarTemplate_cluster_agent_env (s : Settings)
    (hflag : s.GetBool "admission_controller.agent_sidecar.cluster_agent.enabled" = true) :
    (getDefaultSidecarTemplate s).Env =
      [ { Name := "DD_API_KEY", Value := "",
          ValueFrom := some { FieldRef := none,
                              SecretKeyRef := some { Name := "datadog-secret", Key := "api-key" } } },
        { Name := "DD_SITE",
          Value := if s.Getenv "DD_SITE" = "" then s.DefaultSite else s.Getenv "DD_SITE",
          ValueFrom := none },
        { Name := "DD_CLUSTER_NAME", Value := s.GetString "cluster_name", ValueFrom := none },
        { Name := "DD_KUBERNETES_KUBELET_NODENAME", Value := "",
          ValueFrom := some { FieldRef := some { APIVersion := "v1", FieldPath := "spec.nodeName" },
                              SecretKeyRef := none } },
        { Name := "DD_CLUSTER_AGENT_ENABLED", Value := "true", ValueFrom := none },
        { Name := "DD_CLUSTER_AGENT_AUTH_TOKEN", Value := "",
          ValueFrom := some { FieldRef := none,
                              SecretKeyRef := some { Name := "datadog-secret", Key := "token" } } },
        { Name := "DD_CLUSTER_AGENT_URL",
          Value := "https://" ++ s.GetString "cluster_agent.kubernetes_service_name" ++ "."
                    ++ s.GetMyNamespace ++ ".svc.cluster.local:"
                    ++ toString (s.GetInt "cluster_agent.cmd_port"),
          ValueFrom := none },
        { Name := "DD_ORCHESTRATOR_EXPLORER_ENABLED", Value := "true", ValueFrom := none } ]
      ∧ (getDefaultSidecarTemplate s).Env.length = 8 := by
  rw [getDefaultSidecarTemplate_enabled s hflag]
  exact ⟨rfl, rfl⟩

theorem getDefaultSidecarTemplate_cluster_agent_env_witness :
    (getDefaultSidecarTemplate clusterAgentSettings).Env =
      [ { Name := "DD_API_KEY", Value := "",
          ValueFrom := some { FieldRef := none,
                              SecretKeyRef := some { Name := "datadog-secret", Key := "api-key" } } },
        { Name := "DD_SITE", Value := "datadoghq.com", ValueFrom := none },
        { Name := "DD_CLUSTER_NAME", Value := "prod", ValueFrom := none },
        { Name := "DD_KUBERNETES_KUBELET_NODENAME", Value := "",
          ValueFrom := some { FieldRef := some { APIVersion := "v1", FieldPath := "spec.nodeName" },
                              SecretKeyRef := none } },
        { Name := "DD_CLUSTER_AGENT_ENABLED", Value := "true", ValueFrom := none },
        { Name := "DD_CLUSTER_AGENT_AUTH_TOKEN", Value := "",
          ValueFrom := some { FieldRef := none,
                              SecretKeyRef := some { Name := "datadog-secret", Key := "token" } } },
        { Name := "DD_CLUSTER_AGENT_URL",
          Value := "https://datadog-cluster-agent.ns1.svc.cluster.local:5005",
          ValueFrom := none },
        { Name := "DD_ORCHESTRATOR_EXPLORER_ENABLED", Value := "true", ValueFrom := none } ]
      ∧ (getDefaultSidecarTemplate clusterAgentSettings).Env.length = 8 :=
  getDefaultSidecarTemplate_cluster_agent_env clusterAgentSettings (by decide)

/-! ## Application order, the skip decision, the ignored arguments -/

/-- C13: Fixed application order. On a non-nil pod with no container carrying the sidecar
name, `injectAgentSidecar` builds the template, then calls the provider step once, on the
untouched template; when that step fails nothing else is called; when it succeeds the
profile step is called once, on the provider step's result, and nothing else; and when
both succeed the container appended is the profile step's result on the provider step's
result on the template. -/
theorem injectAgentSidecar_application_order (s : Settings) (provider profile : Applier)
    (p : Pod) (ns : String) (dc : DynamicInterface)
    (hno : ∀ c ∈ p.Spec.Containers, c.Name ≠ s.agentSidecarContainerName) :
    (∀ e, (provider (getDefaultSidecarTemplate s)).2 = some e →
        (injectAgentSidecar s provider profile (some p) ns dc).trace
          = [Event.getDefaultSidecarTemplate,
              Event.applyProviderOverrides (getDefaultSidecarTemplate s)])
      ∧ ((provider (getDefaultSidecarTemplate s)).2 = none →
        (injectAgentSidecar s provider profile (some p) ns dc).trace
          = [Event.getDefaultSidecarTemplate,
              Event.applyProviderOverrides (getDefaultSidecarTemplate s),
              Event.applyProfileOverrides (provider (getDefaultSidecarTemplate s)).1])
      ∧ ((provider (getDefaultSidecarTemplate s)).2 = none →
          (profile (provider (getDefaultSidecarTemplate s)).1).2 = none →
        (injectAgentSidecar s provider profile (some p) ns dc).err = none
          ∧ (injectAgentSidecar s provider profile (some p) ns dc).pod
            = some { p with Spec := { p.Spec with Containers := p.Spec.Containers
                ++ [(profile (provider (getDefaultSidecarTemplate s)).1).1] } }) := by
  have hscan := (sidecarAlreadyExists_false_iff _ _).mpr hno
  refine ⟨?_, ?_, ?_⟩
  · intro e h1
    rw [injectAgentSidecar_provider_error s provider profile p ns dc e hscan h1]
  · intro h1
    cases h2 : (profile (provider (getDefaultSidecarTemplate s)).1).2 with
    | some e => rw [injectAgentSidecar_profile_error s provider profile p ns dc e hscan h1 h2]
    | none => rw [injectAgentSidecar_success s provider profile p ns dc hscan h1 h2]
  · intro h1 h2
    rw [injectAgentSidecar_success s provider profile p ns dc hscan h1 h2]
    exact ⟨rfl, rfl⟩

theorem injectAgentSidecar_application_order_witness :
    (∀ e, (imageOverride (getDefaultSidecarTemplate defaultSettings)).2 = some e →
        (injectAgentSidecar defaultSettings imageOverride noOverrides (some appPod) "shop"
            ⟨7⟩).trace
          = [Event.getDefaultSidecarTemplate,
              Event.applyProviderOverrides (getDefaultSidecarTemplate defaultSettings)])
      ∧ ((imageOverride (getDefaultSidecarTemplate defaultSettings)).2 = none →
        (injectAgentSidecar defaultSettings imageOverride noOverrides (some appPod) "shop"
            ⟨7⟩).trace
          = [Event.getDefaultSidecarTemplate,
              Event.applyProviderOverrides (getDefaultSidecarTemplate defaultSettings),
              Event.applyProfileOverrides
                (imageOverride (getDefaultSidecarTemplate defaultSettings)).1])
      ∧ ((imageOverride (getDefaultSidecarTemplate defaultSettings)).2 = none →
          (noOverrides (imageOverride (getDefaultSidecarTemplate defaultSettings)).1).2 = none →
        (injectAgentSidecar defaultSettings imageOverride noOverrides (some appPod) "shop"
            ⟨7⟩).err = none
          ∧ (injectAgentSidecar defaultSettings imageOverride noOverrides (some appPod) "shop"
              ⟨7⟩).pod
            = some { appPod with Spec := { appPod.Spec with Containers := appPod.Spec.Containers
                ++ [(noOverrides
                      (imageOverride (getDefaultSidecarTemplate defaultSettings)).1).1] } }) :=
  injectAgentSidecar_application_order defaultSettings imageOverride noOverrides appPod "shop"
    ⟨7⟩ (by decide)

/-- A run of the fixed order on `appPod`: the provider step sees the template, the profile
step sees the template with the provider's image, and a failing provider step ends the
call before the profile step. -/
theorem injectAgentSidecar_application_order_example :
    (injectAgentSidecar defaultSettings imageOverride noOverrides (some appPod) "shop" ⟨7⟩).trace
        = [Event.getDefaultSidecarTemplate,
            Event.applyProviderOverrides (getDefaultSidecarTemplate defaultSettings),
            Event.applyProfileOverrides
              { getDefaultSidecarTemplate defaultSettings with Image := "custom/agent:1" }]
      ∧ (injectAgentSidecar defaultSettings failingOverrides imageOverride (some appPod) "shop"
          ⟨7⟩).trace
        = [Event.getDefaultSidecarTemplate,
            Event.applyProviderOverrides (getDefaultSidecarTemplate defaultSettings)] := by
  decide

/-- C17: The already-present decision depends only on the names in the pod's regular
container list. For every non-nil pod, `injectAgentSidecar` skips (its only call is the
skip log line) if and only if some element of `pod.Spec.Containers` carries the sidecar
name, and it builds the template if and only if none does; a pod whose regular containers
carry the same names, whatever their images, env and resources and whatever the other pod
fields (init containers included), gets the same decision. -/
theorem injectAgentSidecar_skip_iff (s : Settings) (provider profile : Applier) (p : Pod)
    (ns : String) (dc : DynamicInterface) :
    ((injectAgentSidecar s provider profile (some p) ns dc).trace = skipTrace
        ↔ ∃ c ∈ p.Spec.Containers, c.Name = s.agentSidecarContainerName)
      ∧ (Event.getDefaultSidecarTemplate ∈ (injectAgentSidecar s provider profile (some p) ns dc).trace
        ↔ ∀ c ∈ p.Spec.Containers, c.Name ≠ s.agentSidecarContainerName)
      ∧ ∀ q : Pod,
          q.Spec.Containers.map (fun c => c.Name) = p.Spec.Containers.map (fun c => c.Name) →
          ((injectAgentSidecar s provider profile (some q) ns dc).trace = skipTrace
            ↔ (injectAgentSidecar s provider profile (some p) ns dc).trace = skipTrace) := by
  have hskip : ∀ r : Pod, (injectAgentSidecar s provider profile (some r) ns dc).trace = skipTrace
      ↔ sidecarAlreadyExists s.agentSidecarContainerName r.Spec.Containers = true := by
    intro r
    cases hscan : sidecarAlreadyExists s.agentSidecarContainerName r.Spec.Containers
    · cases h1 : (provider (getDefaultSidecarTemplate s)).2 with
      | some e =>
        rw [injectAgentSidecar_provider_error s provider profile r ns dc e hscan h1]
        simp [skipTrace]
      | none =>
        cases h2 : (profile (provider (getDefaultSidecarTemplate s)).1).2 with
        | some e =>
          rw [injectAgentSidecar_profile_error s provider profile r ns dc e hscan h1 h2]
          simp [skipTrace]
        | none =>
          rw [injectAgentSidecar_success s provider profile r ns dc hscan h1 h2]
          simp [skipTrace]
    · simp [injectAgentSidecar, hscan, skipTrace]
  have hbuild : Event.getDefaultSidecarTemplate
        ∈ (injectAgentSidecar s provider profile (some p) ns dc).trace
      ↔ sidecarAlreadyExists s.agentSidecarContainerName p.Spec.Containers = false := by
    cases hscan : sidecarAlreadyExists s.agentSidecarContainerName p.Spec.Containers
    · cases h1 : (provider (getDefaultSidecarTemplate s)).2 with
      | some e =>
        rw [injectAgentSidecar_provider_error s provider profile p ns dc e hscan h1]
        simp
      | none =>
        cases h2 : (profile (provider (getDefaultSidecarTemplate s)).1).2 with
        | some e =>
          rw [injectAgentSidecar_profile_error s provider profile p ns dc e hscan h1 h2]
          simp
        | none =>
          rw [injectAgentSidecar_success s provider profile p ns dc hscan h1 h2]
          simp
    · simp [injectAgentSidecar, hscan]
  have hnames : ∀ r : Pod, (∃ c ∈ r.Spec.Containers, c.Name = s.agentSidecarContainerName)
      ↔ s.agentSidecarContainerName ∈ r.Spec.Containers.map (fun c => c.Name) := by
    intro r
    simp [List.mem_map]
  refine ⟨?_, ?_, ?_⟩
  · rw [hskip, sidecarAlreadyExists_iff]
  · rw [hbuild, sidecarAlreadyExists_false_iff]
  · intro q hq
    rw [hskip, hskip, sidecarAlreadyExists_iff, sidecarAlreadyExists_iff, hnames, hnames, hq]

/-- The decision on concrete pods: `injectedPod` and `relabelledPod` carry the same
container names and are both skipped, while `initSidecarPod`, whose only container with the
sidecar name is an init container, is not skipped and receives the sidecar. -/
theorem injectAgentSidecar_skip_examples :
    (injectAgentSidecar defaultSettings noOverrides noOverrides (some injectedPod) "shop"
        ⟨7⟩).trace = skipTrace
      ∧ (injectAgentSidecar defaultSettings noOverrides noOverrides (some relabelledPod) "shop"
        ⟨7⟩).trace = skipTrace
      ∧ (injectAgentSidecar defaultSettings noOverrides noOverrides (some initSidecarPod) "shop"
        ⟨7⟩).pod
        = some { initSidecarPod with
            Spec := { initSidecarPod.Spec with
              Containers := [appContainer, getDefaultSidecarTemplate defaultSettings] } } := by
  decide

theorem injectAgentSidecar_skip_iff_witness :
    (injectAgentSidecar defaultSettings noOverrides noOverrides (some relabelledPod) "shop"
        ⟨7⟩).trace = skipTrace
      ↔ (injectAgentSidecar defaultSettings noOverrides noOverrides (some injectedPod) "shop"
        ⟨7⟩).trace = skipTrace :=
  (injectAgentSidecar_skip_iff defaultSettings noOverrides noOverrides injectedPod "shop"
    ⟨7⟩).2.2 relabelledPod (by decide)

/-- C18: The outcome of `injectAgentSidecar` (pod left behind, returned error, calls made)
is the same for any two namespace strings and any two dynamic clients, on every pod
pointer, nil included, and for all settings and override steps. -/
theorem injectAgentSidecar_ignores_namespace_and_client (s : Settings)
    (provider profile : Applier) (pod : Option Pod) (ns1 ns2 : String)
    (dc1 dc2 : DynamicInterface) :
    injectAgentSidecar s provider profile pod ns1 dc1
      = injectAgentSidecar s provider profile pod ns2 dc2 := by
  cases pod with
  | none => rfl
  | some p => simp only [injectAgentSidecar]

/-! ## Invariants of the template's environment variables -/

/-- C14: EnvVar exclusivity on the template. For every configuration, with the cluster
agent enabled or disabled and whatever the configuration strings are (empty included),
every environment variable of the template carries exactly one of the three value kinds:
a literal value, a secret reference, a field reference. -/
theorem getDefaultSidecarTemplate_env_exclusive (s : Settings) :
    ∀ e ∈ (getDefaultSidecarTemplate s).Env, valueKinds e = 1 := by
  intro e he
  cases hflag : s.GetBool "admission_controller.agent_sidecar.cluster_agent.enabled"
  · rw [getDefaultSidecarTemplate_disabled s hflag] at he
    simp only [List.mem_cons, List.mem_singleton, List.not_mem_nil, or_false] at he
    rcases he with rfl | rfl | rfl | rfl <;>
      simp [valueKinds, carriesLiteral, carriesSecretRef, carriesFieldRef]
  · rw [getDefaultSidecarTemplate_enabled s hflag] at he
    simp only [List.mem_cons, List.mem_singleton, List.not_mem_nil, or_false] at he
    rcases he with rfl | rfl | rfl | rfl | rfl | rfl | rfl | rfl <;>
      simp [valueKinds, carriesLiteral, carriesSecretRef, carriesFieldRef]

theorem getDefaultSidecarTemplate_env_exclusive_witness :
    ({ Name := "DD_CLUSTER_NAME", Value := "" } : EnvVar)
        ∈ (getDefaultSidecarTemplate emptySettings).Env
      ∧ valueKinds { Name := "DD_CLUSTER_NAME", Value := "" } = 1 :=
  ⟨by decide,
    getDefaultSidecarTemplate_env_exclusive emptySettings
      { Name := "DD_CLUSTER_NAME", Value := "" } (by decide)⟩

/-- The value kinds on concrete entries: with every configuration string empty each of the
four template variables carries one kind (DD_CLUSTER_NAME the empty literal), while an
entry with both a literal and a secret reference carries two and an entry whose source is
empty carries none. -/
theorem valueKinds_examples :
    (getDefaultSidecarTemplate emptySettings).Env.map valueKinds = [1, 1, 1, 1]
      ∧ (getDefaultSidecarTemplate clusterAgentSettings).Env.map valueKinds
          = [1, 1, 1, 1, 1, 1, 1, 1]
      ∧ valueKinds { Name := "A", Value := "x",
                     ValueFrom := some { SecretKeyRef := some { Name := "n", Key := "k" } } } = 2
      ∧ valueKinds { Name := "A", ValueFrom := some {} } = 0 := by
  decide

/-- C15: `getDefaultSidecarTemplate` never fails. It is a total function of the
configuration: for every configuration it returns a container with the fixed name, the
IfNotPresent pull policy, the default resources and four or eight environment variables,
and the error of its `withEnvOverrides` call is nil. When registry, image name, image tag
and cluster name are all empty and the cluster agent is disabled, the container returned
has image "/:", DD_CLUSTER_NAME equal to the empty string, the fixed name, four
environment variables and the default resources. -/
theorem getDefaultSidecarTemplate_total (s : Settings) :
    (∃ c : Container, getDefaultSidecarTemplate s = c
        ∧ c.Name = s.agentSidecarContainerName
        ∧ c.ImagePullPolicy = "IfNotPresent"
        ∧ c.Resources = { Requests := [("memory", MustParse "256Mi"), ("cpu", MustParse "200m")],
                          Limits := [("memory", MustParse "256Mi"), ("cpu", MustParse "200m")] }
        ∧ c.Env.length
            = if s.GetBool "admission_controller.agent_sidecar.cluster_agent.enabled" then 8
              else 4)
      ∧ (∀ (c : Container) (extraEnv : List EnvVar), (withEnvOverrides c extraEnv).2 = none)
      ∧ (s.GetString "admission_controller.agent_sidecar.container_registry" = "" →
          s.GetString "admission_controller.agent_sidecar.image_name" = "" →
          s.GetString "admission_controller.agent_sidecar.image_tag" = "" →
          s.GetString "cluster_name" = "" →
          s.GetBool "admission_controller.agent_sidecar.cluster_agent.enabled" = false →
          getDefaultSidecarTemplate s =
            { Name := s.agentSidecarContainerName,
              Image := "/:",
              ImagePullPolicy := "IfNotPresent",
              Env :=
                [ { Name := "DD_API_KEY", Value := "",
                    ValueFrom := some { FieldRef := none,
                                        SecretKeyRef := some { Name := "datadog-secret",
                                                               Key := "api-key" } } },
                  { Name := "DD_SITE",
                    Value := if s.Getenv "DD_SITE" = "" then s.DefaultSite
                             else s.Getenv "DD_SITE",
                    ValueFrom := none },
                  { Name := "DD_CLUSTER_NAME", Value := "", ValueFrom := none },
                  { Name := "DD_KUBERNETES_KUBELET_NODENAME", Value := "",
                    ValueFrom := some { FieldRef := some { APIVersion := "v1",
                                                           FieldPath := "spec.nodeName" },
                                        SecretKeyRef := none } } ],
              Resources :=
                { Requests := [("memory", MustParse "256Mi"), ("cpu", MustParse "200m")],
                  Limits := [("memory", MustParse "256Mi"), ("cpu", MustParse "200m")] } }) := by
  refine ⟨?_, fun _ _ => rfl, ?_⟩
  · cases hflag : s.GetBool "admission_controller.agent_sidecar.cluster_agent.enabled"
    · rw [getDefaultSidecarTemplate_disabled s hflag]
      exact ⟨_, rfl, rfl, rfl, rfl, rfl⟩
    · rw [getDefaultSidecarTemplate_enabled s hflag]
      exact ⟨_, rfl, rfl, rfl, rfl, rfl⟩
  · intro hreg hname htag hcluster hflag
    rw [getDefaultSidecarTemplate_disabled s hflag, hreg, hname, htag, hcluster]
    rfl

/-- The template on the empty configuration. -/
theorem getDefaultSidecarTemplate_total_witness :
    getDefaultSidecarTemplate emptySettings =
      { Name := "datadog-agent-injected",
        Image := "/:",
        ImagePullPolicy := "IfNotPresent",
        Env :=
          [ { Name := "DD_API_KEY",
              ValueFrom := some { SecretKeyRef := some { Name := "datadog-secret",
                                                         Key := "api-key" } } },
            { Name := "DD_SITE", Value := "datadoghq.com" },
            { Name := "DD_CLUSTER_NAME", Value := "" },
            { Name := "DD_KUBERNETES_KUBELET_NODENAME",
              ValueFrom := some { FieldRef := some { APIVersion := "v1",
                                                     FieldPath := "spec.nodeName" } } } ],
        Resources :=
          { Requests := [("memory", MustParse "256Mi"), ("cpu", MustParse "200m")],
            Limits := [("memory", MustParse "256Mi"), ("cpu", MustParse "200m")] } } :=
  (getDefaultSidecarTemplate_total emptySettings).2.2 rfl rfl rfl rfl rfl

/-- C16: Environment-variable names are unique in the template. For every configuration,
with the cluster agent enabled or disabled, no two environment variables of the template
share a name: the names are pairwise distinct and each name has at most one entry. With
the cluster agent enabled the first four entries are the base entries, untouched, and
four entries follow them. -/
theorem getDefaultSidecarTemplate_env_names_unique (s : Settings) :
    ((getDefaultSidecarTemplate s).Env.map (fun e => e.Name)).Nodup
      ∧ (∀ name : String, (envNamed name (getDefaultSidecarTemplate s).Env).length ≤ 1)
      ∧ (getDefaultSidecarTemplate s).Env.map (fun e => e.Name)
          = (if s.GetBool "admission_controller.agent_sidecar.cluster_agent.enabled" then
              ["DD_API_KEY", "DD_SITE", "DD_CLUSTER_NAME", "DD_KUBERNETES_KUBELET_NODENAME",
                "DD_CLUSTER_AGENT_ENABLED", "DD_CLUSTER_AGENT_AUTH_TOKEN",
                "DD_CLUSTER_AGENT_URL", "DD_ORCHESTRATOR_EXPLORER_ENABLED"]
             else
              ["DD_API_KEY", "DD_SITE", "DD_CLUSTER_NAME", "DD_KUBERNETES_KUBELET_NODENAME"])
      ∧ (getDefaultSidecarTemplate s).Env.take 4
          = (getDefaultSidecarTemplate { s with GetBool := fun _ => false }).Env := by
  refine ⟨getDefaultSidecarTemplate_env_names_nodup s,
    fun name => envNamed_length_le_one_of_nodup name _
      (getDefaultSidecarTemplate_env_names_nodup s), ?_, ?_⟩
  · cases hflag : s.GetBool "admission_controller.agent_sidecar.cluster_agent.enabled"
    · rw [getDefaultSidecarTemplate_disabled s hflag]
      rfl
    · rw [getDefaultSidecarTemplate_enabled s hflag]
      rfl
  · rw [getDefaultSidecarTemplate_disabled { s with GetBool := fun _ => false } rfl]
    cases hflag : s.GetBool "admission_controller.agent_sidecar.cluster_agent.enabled"
    · rw [getDefaultSidecarTemplate_disabled s hflag]
      rfl
    · rw [getDefaultSidecarTemplate_enabled s hflag]
      rfl

/-! ## The environment-variable merge of `withEnvOverrides` -/

theorem overrideEnvVar_eq_firstNamed (env : List EnvVar) (o : EnvVar) :
    overrideEnvVar env o
      = match firstNamed o.Name env with
        | some i => env.set i o
        | none => env ++ [o] := by
  induction env with
  | nil => rfl
  | cons e rest ih =>
    by_cases he : e.Name = o.Name
    · simp [overrideEnvVar, firstNamed, he]
    · cases hrest : firstNamed o.Name rest with
      | none =>
        rw [hrest] at ih
        simp [overrideEnvVar, firstNamed, he, hrest, ih]
      | some i =>
        rw [hrest] at ih
        simp [overrideEnvVar, firstNamed, he, hrest, ih]

theorem firstNamed_eq_none_iff (name : String) (env : List EnvVar) :
    firstNamed name env = none ↔ ∀ e ∈ env, e.Name ≠ name := by
  induction env with
  | nil => simp [firstNamed]
  | cons e rest ih =>
    by_cases he : e.Name = name
    · simp [firstNamed, he]
    · simp [firstNamed, he, ih]

theorem firstNamed_some (name : String) (env : List EnvVar) (i : Nat)
    (h : firstNamed name env = some i) :
    i < env.length ∧ (env[i]?).map (fun e => e.Name) = some name
      ∧ ∀ j, j < i → (env[j]?).map (fun e => e.Name) ≠ some name := by
  induction env generalizing i with
  | nil => simp [firstNamed] at h
  | cons e rest ih =>
    by_cases he : e.Name = name
    · simp only [firstNamed, he, if_true, Option.some.injEq] at h
      subst h
      simp [he]
    · simp only [firstNamed, he, if_false, Option.map_eq_some'] at h
      obtain ⟨k, hk, rfl⟩ := h
      obtain ⟨h1, h2, h3⟩ := ih k hk
      refine ⟨by simp; omega, by simpa using h2, ?_⟩
      intro j hj
      cases j with
      | zero => simp [he]
      | succ j => simpa using h3 j (by omega)

/-- An override leaves the entries of every other name, and their order, as they are:
any selection by name that leaves the override's name out sees the same entries. -/
theorem filter_overrideEnvVar (keep : String → Bool) (env : List EnvVar) (o : EnvVar)
    (h : keep o.Name = false) :
    (overrideEnvVar env o).filter (fun e => keep e.Name) = env.filter (fun e => keep e.Name) := by
  induction env with
  | nil => simp [overrideEnvVar, h]
  | cons e rest ih =>
    by_cases he : e.Name = o.Name
    · simp [overrideEnvVar, he, h]
    · simp only [overrideEnvVar, he, if_false, List.filter_cons, ih]

theorem filter_foldl_overrideEnvVar (keep : String → Bool) (overrides env : List EnvVar)
    (h : ∀ o ∈ overrides, keep o.Name = false) :
    (overrides.foldl overrideEnvVar env).filter (fun e => keep e.Name)
      = env.filter (fun e => keep e.Name) := by
  induction overrides generalizing env with
  | nil => rfl
  | cons o rest ih =>
    rw [List.foldl_cons, ih _ (fun x hx => h x (List.mem_cons_of_mem _ hx)),
      filter_overrideEnvVar keep env o (h o (List.mem_cons_self _ _))]

theorem envNamed_overrideEnvVar_length (name : String) (env : List EnvVar) (o : EnvVar) :
    (envNamed name (overrideEnvVar env o)).length
      = if envNamed name env = [] ∧ name = o.Name then 1 else (envNamed name env).length := by
  by_cases ho : o.Name = name
  · rw [envNamed_overrideEnvVar_same name env o ho]
    cases henv : envNamed name env with
    | nil => simp [ho]
    | cons x xs => simp
  · rw [envNamed_overrideEnvVar_other name env o ho]
    have : ¬ name = o.Name := fun hc => ho hc.symm
    simp [this]

theorem envNamed_foldl_length (name : String) (overrides env : List EnvVar) :
    (envNamed name (overrides.foldl overrideEnvVar env)).length
      = if envNamed name env = [] ∧ name ∈ overrides.map (fun o => o.Name) then 1
        else (envNamed name env).length := by
  induction overrides generalizing env with
  | nil => simp
  | cons o rest ih =>
    rw [List.foldl_cons, ih]
    by_cases ho : o.Name = name
    · have hstep := envNamed_overrideEnvVar_length name env o
      have hne : envNamed name (overrideEnvVar env o) ≠ [] := by
        rw [envNamed_overrideEnvVar_same name env o ho]
        simp
      cases henv : envNamed name env with
      | nil =>
        rw [henv] at hstep
        simp [hne, hstep, ho]
      | cons x xs =>
        rw [henv] at hstep
        simp [hne, hstep]
    · have hother := envNamed_overrideEnvVar_other name env o ho
      have : ¬ name = o.Name := fun hc => ho hc.symm
      simp [hother, this]

/-- C12: The environment-variable merge of `withEnvOverrides`. For every container and
override EnvVar: when an entry of the env list carries the override's name, the first such
entry is replaced by the override at its position (the list keeps its length and its other
positions), otherwise the override is appended at the end; the call returns nil and changes
no other field. For every list of overrides: the entries whose names are not overridden
are the same, in the same order, and each name has as many entries as before, or one if it
had none and is overridden. -/
theorem withEnvOverrides_merge (container : Container) (o : EnvVar) :
    (withEnvOverrides container [o]).1.Env
        = (match firstNamed o.Name container.Env with
            | some i => container.Env.set i o
            | none => container.Env ++ [o])
      ∧ (firstNamed o.Name container.Env = none ↔ ∀ e ∈ container.Env, e.Name ≠ o.Name)
      ∧ (∀ i, firstNamed o.Name container.Env = some i →
          i < container.Env.length
            ∧ (container.Env[i]?).map (fun e => e.Name) = some o.Name
            ∧ ∀ j, j < i → (container.Env[j]?).map (fun e => e.Name) ≠ some o.Name)
      ∧ ∀ extraEnv : List EnvVar,
          (withEnvOverrides container extraEnv).2 = none
          ∧ (withEnvOverrides container extraEnv).1
              = { container with Env := (withEnvOverrides container extraEnv).1.Env }
          ∧ (withEnvOverrides container extraEnv).1.Env.filter
                (fun e => decide (e.Name ∉ extraEnv.map (fun x => x.Name)))
              = container.Env.filter
                (fun e => decide (e.Name ∉ extraEnv.map (fun x => x.Name)))
          ∧ ∀ name : String,
              (envNamed name (withEnvOverrides container extraEnv).1.Env).length
                = if envNamed name container.Env = []
                      ∧ name ∈ extraEnv.map (fun x => x.Name) then 1
                  else (envNamed name container.Env).length := by
  refine ⟨?_, firstNamed_eq_none_iff _ _, fun i hi => firstNamed_some _ _ i hi, ?_⟩
  · simp only [withEnvOverrides, List.foldl_cons, List.foldl_nil]
    exact overrideEnvVar_eq_firstNamed container.Env o
  · intro extraEnv
    refine ⟨rfl, rfl, ?_, ?_⟩
    · simp only [withEnvOverrides]
      apply filter_foldl_overrideEnvVar (fun n => decide (n ∉ extraEnv.map (fun x => x.Name)))
      intro x hx
      simp only [decide_eq_false_iff_not, not_not]
      exact List.mem_map.mpr ⟨x, hx, rfl⟩
    · intro name
      simp only [withEnvOverrides]
      exact envNamed_foldl_length name extraEnv container.Env

/-- The merge on the template of `defaultSettings`: an override of DD_SITE replaces the
entry at position 1, an override of a new name is appended after the four entries. -/
theorem withEnvOverrides_merge_witness :
    (withEnvOverrides (getDefaultSidecarTemplate defaultSettings)
        [{ Name := "DD_SITE", Value := "datadoghq.eu" }]).1.Env
      = (match firstNamed "DD_SITE" (getDefaultSidecarTemplate defaultSettings).Env with
          | some i => (getDefaultSidecarTemplate defaultSettings).Env.set i
              { Name := "DD_SITE", Value := "datadoghq.eu" }
          | none => (getDefaultSidecarTemplate defaultSettings).Env
              ++ [{ Name := "DD_SITE", Value := "datadoghq.eu" }]) :=
  (withEnvOverrides_merge (getDefaultSidecarTemplate defaultSettings)
    { Name := "DD_SITE", Value := "datadoghq.eu" }).1

/-- The merge evaluated: replacement in place and append. -/
theorem withEnvOverrides_merge_example :
    (withEnvOverrides (getDefaultSidecarTemplate defaultSettings)
        [{ Name := "DD_SITE", Value := "datadoghq.eu" },
         { Name := "DD_TAGS", Value := "team:pay" }]).1.Env.map (fun e => (e.Name, e.Value))
      = [("DD_API_KEY", ""), ("DD_SITE", "datadoghq.eu"), ("DD_CLUSTER_NAME", "prod"),
         ("DD_KUBERNETES_KUBELET_NODENAME", ""), ("DD_TAGS", "team:pay")]
      ∧ firstNamed "DD_SITE" (getDefaultSidecarTemplate defaultSettings).Env = some 1
      ∧ firstNamed "DD_TAGS" (getDefaultSidecarTemplate defaultSettings).Env = none := by
  decide

end agentsidecar
